import Mathlib

/-!
Verification development for the connection/routing core of the Dyad
desktop application: the MCP connection manager (`src/ipc/utils/mcp_manager.ts`),
the CLI executable detector (`src/ipc/utils/gemini_cli_detector.ts`), the
CLI protocol bridges (`src/ipc/utils/gemini_cli_provider.ts`,
`src/ipc/utils/codex_cli_provider.ts`), and the per-provider routing logic
(`getRegularModelClient` in the model-client resolver).

The TypeScript sources are embedded shallowly: JavaScript strings become
`String`, falsy checks on optional strings become explicit emptiness tests,
external collaborators (the settings database, `JSON.parse`, `child_process`,
the filesystem) become explicit parameters, and the cooperative async
scheduling of the manager becomes a step relation on an explicit state.
-/

namespace Dyad

/-! ## JS-style string primitives

`String.prototype.includes`, `String.prototype.toLowerCase`,
`String.prototype.split(/\r?\n/)` and `String.prototype.trim` as used by the
error classifiers.  `includes` is substring occurrence; we define it by
recursion over the character list, exactly the naive scan.
-/

/-- Is `p` a (contiguous) prefix of `l`, over characters. -/
def prefixOfChars : List Char → List Char → Bool
  | [], _ => true
  | _ :: _, [] => false
  | p :: ps, c :: cs => p = c && prefixOfChars ps cs

/-- Does `l` contain `pat` as a contiguous sublist. -/
def hasSubChars (pat : List Char) : List Char → Bool
  | [] => prefixOfChars pat []
  | c :: cs => prefixOfChars pat (c :: cs) || hasSubChars pat cs

/-- JavaScript `haystack.includes(needle)`. -/
def jsIncludes (s pat : String) : Bool := hasSubChars pat.data s.data

/-- JavaScript `s.toLowerCase()` (ASCII-faithful; every string the
classifiers match against is ASCII). -/
def jsToLower (s : String) : String := ⟨s.data.map Char.toLower⟩

/-- Whitespace for JavaScript `trim` (the ASCII part). -/
def jsWhitespace (c : Char) : Bool :=
  c = ' ' || c = '\t' || c = '\n' || c = '\r' ||
  c = Char.ofNat 11 || c = Char.ofNat 12

/-- JavaScript `s.trim()`. -/
def jsTrim (s : String) : String :=
  ⟨(((s.data.dropWhile jsWhitespace).reverse.dropWhile jsWhitespace).reverse)⟩

/-- Split a character list at `\r\n` or `\n` boundaries. -/
def splitLinesChars : List Char → List (List Char)
  | [] => [[]]
  | '\r' :: '\n' :: rest => [] :: splitLinesChars rest
  | '\n' :: rest => [] :: splitLinesChars rest
  | c :: rest =>
    match splitLinesChars rest with
    | [] => [[c]]
    | l :: ls => (c :: l) :: ls

/-- JavaScript `s.split(/\r?\n/)`. -/
def splitLines (s : String) : List String :=
  (splitLinesChars s.data).map (⟨·⟩)

/-- Split a character list at `\n` boundaries only. -/
def splitNlChars : List Char → List (List Char)
  | [] => [[]]
  | '\n' :: rest => [] :: splitNlChars rest
  | c :: rest =>
    match splitNlChars rest with
    | [] => [[c]]
    | l :: ls => (c :: l) :: ls

/-- JavaScript `s.split("\n")`. -/
def jsSplitNl (s : String) : List String :=
  (splitNlChars s.data).map (⟨·⟩)

/-! ## The MCP connection manager (`mcp_manager.ts`)

`McpManager` keeps two maps keyed by the numeric server id:
`clients : Map<number, Client>` and
`initializingClients : Map<number, Promise<Client>>`.  Node scheduling is
single-threaded and cooperative, so each synchronous stretch of
`getClient` / `dispose` and each promise-settling continuation is one
atomic step.  We embed the manager as a state machine whose state carries
both maps (as functions from server id), the set of live (unsettled)
initialization attempts with their awaiting callers, a counter of
client-creation attempts started (invocations of `initializeClient`), the
results delivered to callers, and the clients on which `close()` was
attempted by `dispose`.
-/

/-- Result a caller of `getClient` observes: the promise resolved with a
client, or rejected with an error message. -/
inductive McpOutcome where
  | ok (clientId : Nat)
  | err (msg : String)
deriving DecidableEq, Repr

/-- A live (not yet settled) `initializeClient` attempt: the server it was
started for and the callers awaiting its promise. -/
structure McpAttempt where
  server : Nat
  waiters : List Nat
deriving DecidableEq, Repr

/-- The state of `McpManager` plus the observable history used by the
claims (factory-invocation count, per-caller results, close attempts). -/
structure McpState where
  /-- `this.clients`: server id to ready client. -/
  clients : Nat → Option Nat
  /-- `this.initializingClients`: server id to the id of the registered
  in-flight attempt (the stored promise). -/
  inflight : Nat → Option Nat
  /-- live attempts by attempt id; removed when the attempt settles. -/
  attempts : Nat → Option McpAttempt
  /-- next fresh attempt id. -/
  nextAttempt : Nat
  /-- how many `initializeClient` invocations (client-creation attempts)
  have been started. -/
  factoryCalls : Nat
  /-- settled results delivered to callers, most recent first. -/
  results : List (Nat × McpOutcome)
  /-- clients on which `dispose` attempted `close()`, most recent first. -/
  closeAttempted : List Nat

/-- The manager before any call: both maps empty. -/
def mcpInit : McpState where
  clients := fun _ => none
  inflight := fun _ => none
  attempts := fun _ => none
  nextAttempt := 0
  factoryCalls := 0
  results := []
  closeAttempted := []

/-- The synchronous prefix of `getClient(serverId)` run by caller
`caller`: return the cached client if present; otherwise await an already
registered in-flight promise if present; otherwise start
`initializeClient`, register its promise in `initializingClients`, and
await it.  In the source there is no `await` between these checks and the
registration, so the whole prefix is one atomic step. -/
def getClientStep (caller server : Nat) (st : McpState) : McpState :=
  match st.clients server with
  | some c => { st with results := (caller, .ok c) :: st.results }
  | none =>
    match st.inflight server with
    | some a =>
      match st.attempts a with
      | some att =>
        { st with
          attempts := fun i =>
            if i = a then some { att with waiters := caller :: att.waiters }
            else st.attempts i }
      | none => st
    | none =>
      let a := st.nextAttempt
      { st with
        inflight := fun k => if k = server then some a else st.inflight k,
        attempts := fun i =>
          if i = a then some { server := server, waiters := [caller] }
          else st.attempts i,
        nextAttempt := a + 1,
        factoryCalls := st.factoryCalls + 1 }

/-- The settling of attempt `a` with outcome `out`, together with the
continuations it resumes: every awaiting caller receives `out`; on success
the owner runs `this.clients.set(serverId, client)`; in both cases the
`finally` of the owner runs `this.initializingClients.delete(serverId)`.
Nothing is cached on failure. -/
def settleStep (a : Nat) (out : McpOutcome) (st : McpState) : McpState :=
  match st.attempts a with
  | none => st
  | some att =>
    let clients' :=
      match out with
      | .ok c => fun k => if k = att.server then some c else st.clients k
      | .err _ => st.clients
    { st with
      clients := clients',
      inflight := fun k => if k = att.server then none else st.inflight k,
      attempts := fun i => if i = a then none else st.attempts i,
      results := att.waiters.map (fun w => (w, out)) ++ st.results }

/-- `dispose(serverId)` with the underlying `close()` call abstracted as
`close : clientId → Except`: if a client is cached, `close()` is attempted
inside `try/catch` (a close error is logged and swallowed, so both match
arms continue identically) and the record is deleted; the in-flight map
entry is deleted regardless.  The `Except` result witnesses that `dispose`
itself never throws. -/
def disposeRun (close : Nat → Except String Unit) (server : Nat)
    (st : McpState) : Except String McpState :=
  let st1 :=
    match st.clients server with
    | some c =>
      let stc := { st with closeAttempted := c :: st.closeAttempted }
      match close c with
      | .ok _ =>
        { stc with clients := fun k => if k = server then none else stc.clients k }
      | .error _ =>
        { stc with clients := fun k => if k = server then none else stc.clients k }
    | none => st
  .ok { st1 with inflight := fun k => if k = server then none else st1.inflight k }

/-- `dispose` as a plain state transformer (its `Except` is always `ok`). -/
def disposeStep (close : Nat → Except String Unit) (server : Nat)
    (st : McpState) : McpState :=
  match disposeRun close server st with
  | .ok st' => st'
  | .error _ => st

/-- `n` concurrent `getClient server` callers (caller ids `0..n-1`), each
arriving before the shared attempt settles: the fold of the synchronous
prefixes. -/
def arriveN (server : Nat) : Nat → McpState
  | 0 => mcpInit
  | n + 1 => getClientStep n server (arriveN server n)

/-! ## Transport construction in `initializeClient` (`mcp_manager.ts`)

`initializeClient` loads the server row, validates the transport
configuration, constructs the transport, and only then builds the
`Promise.race` of `experimental_createMCPClient` against the 30 000 ms
timer.  Unsupported transports and missing fields throw before the race
value exists.  JavaScript falsy checks (`!s.command`, `!s.url`) treat the
empty string like a missing field.
-/

/-- The columns of the `mcpServers` row that `initializeClient` reads. -/
structure McpServerRow where
  id : Nat
  transport : String
  command : Option String
  args : Option (List String)
  envJson : Option (List (String × String))
  url : Option String
deriving DecidableEq, Repr

/-- The transport handle handed to `experimental_createMCPClient`. -/
inductive McpTransport where
  | stdio (command : String) (args : List String)
      (env : Option (List (String × String)))
  | http (url : String)
deriving DecidableEq, Repr

/-- The timeout race that `initializeClient` builds once a transport
exists: the client-creation promise for the transport raced against the
fixed 30 000 ms timer. -/
structure McpInitRace where
  transport : McpTransport
  timeoutMs : Nat
deriving DecidableEq, Repr

/-- JavaScript truthiness of an optional string field: `undefined`/`null`
and the empty string are falsy. -/
def strTruthy : Option String → Bool
  | some s => s ≠ ""
  | none => false

/-- `initializeClient` up to the construction of the timeout race: row
lookup result, transport validation, transport construction.  `.error`
means the function threw before any race was constructed. -/
def initializeClientRace (row : Option McpServerRow) (serverId : Nat) :
    Except String McpInitRace :=
  match row with
  | none => .error ("MCP server not found: " ++ toString serverId)
  | some s =>
    if s.transport = "stdio" then
      let args := s.args.getD []
      if strTruthy s.command then
        .ok { transport := .stdio (s.command.getD "") args s.envJson,
              timeoutMs := 30000 }
      else
        .error "MCP server command is required"
    else if s.transport = "http" then
      if strTruthy s.url then
        .ok { transport := .http (s.url.getD ""), timeoutMs := 30000 }
      else
        .error "HTTP MCP requires url"
    else
      .error ("Unsupported MCP transport: " ++ s.transport)

/-! ## The executable locator (`gemini_cli_detector.ts`)

`resolveCliPath` builds an ordered candidate list (explicit configured
path, then `GEMINI_CLI_PATH`, then, unless auto-detection is disabled, the
PATH lookup name `gemini` followed by well-known install paths) and
accepts the first candidate that resolves to a concrete command and
passes the executability check.  The environment (`GEMINI_CLI_PATH`,
whether `PATH` is truthy, the `which`/`where` subprocess and the
`fs.access` executability probe) is abstracted as a record of functions.
-/

/-- The fixed auto-detect candidates (`DEFAULT_PATH_CANDIDATES`). -/
def defaultPathCandidates : List String :=
  [ "gemini",
    "/usr/local/bin/gemini",
    "/opt/homebrew/bin/gemini",
    "/usr/bin/gemini",
    "C:\\Program Files\\Google\\Gemini CLI\\gemini.exe",
    "C:\\Program Files (x86)\\Google\\Gemini CLI\\gemini.exe" ]

/-- The external world the detector consults. -/
structure DetectorEnv where
  /-- `getEnvVar("GEMINI_CLI_PATH")`. -/
  envPath : Option String
  /-- truthiness of `process.env.PATH`. -/
  pathIsSet : Bool
  /-- the `which`/`where` subprocess: exit ok and captured stdout. -/
  which : String → Bool × String
  /-- `fs.access(path, X_OK)` succeeding. -/
  canExec : String → Bool

/-- `findInPath(binary)`: run `which`/`where`; on success take the first
line of stdout, trimmed; return it only if nonempty. -/
def findInPath (env : DetectorEnv) (binary : String) : Option String :=
  let r := env.which binary
  if r.1 then
    match ((jsSplitNl r.2).map jsTrim).head? with
    | some first => if first ≠ "" then some first else none
    | none => none
  else none

/-- Push an optional string candidate only when it is truthy
(`if (value) candidates.push(value)`). -/
def pushIfTruthy : Option String → List String
  | some p => if p ≠ "" then [p] else []
  | none => []

/-- The ordered candidate list `resolveCliPath` builds.  A truthy explicit
path first, then a truthy `GEMINI_CLI_PATH`, then (unless
`autoDetect === false`) `"gemini"` when `PATH` is truthy (else the empty
string, skipped by the loop) followed by the fixed install paths. -/
def buildCandidates (explicitPath : Option String) (autoDetect : Option Bool)
    (env : DetectorEnv) : List String :=
  pushIfTruthy explicitPath ++
  pushIfTruthy env.envPath ++
  (if autoDetect ≠ some false then
    (if env.pathIsSet then "gemini" else "") :: defaultPathCandidates
  else [])

/-- How the loop turns one candidate into a concrete command: a candidate
with a path separator is used directly, otherwise it goes through the
PATH lookup; the result qualifies only if the executability check
passes. -/
def qualifyCandidate (env : DetectorEnv) (c : String) : Option String :=
  if c = "" then none
  else
    let command :=
      if jsIncludes c "/" || jsIncludes c "\\" then some c
      else findInPath env c
    match command with
    | some cmd => if env.canExec cmd then some cmd else none
    | none => none

/-- The `for`-loop of `resolveCliPath`: first qualifying candidate wins. -/
def resolveLoop (env : DetectorEnv) : List String → Option String
  | [] => none
  | c :: rest =>
    match qualifyCandidate env c with
    | some cmd => some cmd
    | none => resolveLoop env rest

/-- `resolveCliPath(options)`: the resolved path, or `none` with the
descriptive error. -/
def resolveCliPath (explicitPath : Option String) (autoDetect : Option Bool)
    (env : DetectorEnv) : Option String × Option String :=
  match resolveLoop env (buildCandidates explicitPath autoDetect env) with
  | some p => (some p, none)
  | none => (none, some "Gemini CLI executable not found")

/-! ## Protocol-bridge failure classification

The failure branches of `createCliFetch` (`gemini_cli_provider.ts`) and
`createCodexCliFetch` (`codex_cli_provider.ts`): quota detection over the
captured output, the codex-only `401` classification, and the synthesized
error responses.  `JSON.parse`-based error extraction (`tryParseError`) is
a platform primitive and is abstracted as a function parameter.
-/

/-- The JSON error body of a synthesized failure response. -/
structure BridgeErrorBody where
  message : String
  type : String
  code : Option String
deriving DecidableEq, Repr

/-- A synthesized failure `Response`: HTTP status plus error body. -/
structure BridgeResponse where
  status : Nat
  error : BridgeErrorBody
deriving DecidableEq, Repr

/-- `detectQuotaMessage` of the gemini provider: fires only on the
case-insensitive indicators `quota exceeded`, `rate_limit_exceeded`,
`resource_exhausted`; returns the first matching line (else the raw
message), trimmed. -/
def geminiDetectQuotaMessage (rawMessage : Option String) : Option String :=
  match rawMessage with
  | none => none
  | some raw =>
    if raw = "" then none
    else
      let lower := jsToLower raw
      if jsIncludes lower "quota exceeded" ||
          jsIncludes lower "rate_limit_exceeded" ||
          jsIncludes lower "resource_exhausted" then
        let lines := splitLines raw
        let quotaLine :=
          ((lines.find? fun line => jsIncludes (jsToLower line) "quota exceeded").orElse
            fun _ =>
              lines.find? fun line =>
                jsIncludes (jsToLower line) "rate_limit_exceeded").getD raw
        some (jsTrim quotaLine)
      else none

/-- `detectQuotaMessage` of the codex provider: fires on the
case-insensitive indicators `rate limit`, `quota`, `429`; returns the
first nonempty trimmed line, defaulting to `OpenAI quota exceeded.`. -/
def codexDetectQuotaMessage (rawMessage : Option String) : Option String :=
  match rawMessage with
  | none => none
  | some raw =>
    if raw = "" then none
    else
      let normalized := jsToLower raw
      if jsIncludes normalized "rate limit" ||
          jsIncludes normalized "quota" ||
          jsIncludes normalized "429" then
        some ((((splitLines raw).map jsTrim).find?
          fun line => line.length > 0).getD "OpenAI quota exceeded.")
      else none

/-- The diagnostic-text fallback `stderr.trim() || stdout.trim() ||
error?.message || default` shared by both bridges. -/
def diagnosticText (stdout stderr : String) (launchErr : Option String)
    (dflt : String) : String :=
  if jsTrim stderr ≠ "" then jsTrim stderr
  else if jsTrim stdout ≠ "" then jsTrim stdout
  else match launchErr with
    | some m => if m ≠ "" then m else dflt
    | none => dflt

/-- The failure branch of the gemini `createCliFetch` (execution not
successful): build `errorPayload.message` (JSON error extraction from
stdout, then stderr, then the diagnostic fallback), run quota detection on
it and on stderr-then-stdout joined, and synthesize status 429 with code
`quota_exceeded`, else status 500 with type `gemini_cli_error` and no
`401` inspection.  `tryParseError` abstracts the `JSON.parse`-based
extraction of `parsed.error.message`. -/
def geminiFailureResponse (tryParseError : String → Option String)
    (stdout stderr : String) (launchErr : Option String) : BridgeResponse :=
  let message :=
    (((tryParseError stdout).orElse fun _ => tryParseError stderr).getD
      (diagnosticText stdout stderr launchErr "Gemini CLI failed"))
  let combinedOutput :=
    String.intercalate "\n" (([stderr, stdout].filter fun s => s ≠ ""))
  match (geminiDetectQuotaMessage (some message)).orElse
      fun _ => geminiDetectQuotaMessage (some combinedOutput) with
  | some quotaMessage =>
    { status := 429,
      error := { message := quotaMessage, type := "rate_limit_exceeded",
                 code := some "quota_exceeded" } }
  | none =>
    { status := 500,
      error := { message := message, type := "gemini_cli_error",
                 code := none } }

/-- The actionable message the codex bridge attaches to a `401`. -/
def codexUnauthorizedMessage : String :=
  "Codex CLI returned 401 Unauthorized. Run `codex login` in a terminal (with the same account) or configure an OpenAI API key in Settings to use Codex."

/-- The failure branch of `createCodexCliFetch` (execution not
successful): quota detection on stderr then stdout (status 429, code
`quota_exceeded`); otherwise the `401` substring inspection of stderr and
stdout (status 401, code `unauthorized`, actionable message); otherwise
status 500 carrying the available diagnostic text. -/
def codexFailureResponse (stdout stderr : String)
    (launchErr : Option String) : BridgeResponse :=
  match (codexDetectQuotaMessage (some stderr)).orElse
      fun _ => codexDetectQuotaMessage (some stdout) with
  | some quotaMessage =>
    { status := 429,
      error := { message := quotaMessage, type := "rate_limit_exceeded",
                 code := some "quota_exceeded" } }
  | none =>
    if jsIncludes stderr "401" || jsIncludes stdout "401" then
      { status := 401,
        error := { message := codexUnauthorizedMessage,
                   type := "codex_cli_error", code := some "unauthorized" } }
    else
      { status := 500,
        error := { message := diagnosticText stdout stderr launchErr "Codex CLI failed",
                   type := "codex_cli_error", code := none } }

/-! ## Streaming and non-streaming success responses

`createStreamingResponse` / `createJsonResponse` of both providers.  The
gemini variant carries an optional usage block; the codex variant never
does.  `created` (`Date.now()` in seconds) is a parameter.  The SSE bytes
are modelled structurally: the stream is the ordered list of emitted
events, each chunk carrying the JSON fields it serializes, with the final
`data: [DONE]` marker as an explicit end-of-stream event.
-/

/-- Token usage extracted from the gemini CLI JSON output
(`GeminiCliUsage`); each field may be absent. -/
structure GeminiCliUsage where
  inputTokens : Option Nat
  outputTokens : Option Nat
  totalTokens : Option Nat
deriving DecidableEq, Repr

/-- The `usage` JSON block of a chat completion. -/
structure UsagePayload where
  prompt_tokens : Nat
  completion_tokens : Nat
  total_tokens : Nat
deriving DecidableEq, Repr

/-- JavaScript truthiness of an optional number (`0` is falsy). -/
def natTruthy : Option Nat → Bool
  | some n => n ≠ 0
  | none => false

/-- The `usagePayload` computation shared by both gemini builders:
present only when some token count is truthy; `total_tokens` defaults to
the sum via `??` (so an explicit `0` is kept). -/
def geminiUsagePayload (usage : Option GeminiCliUsage) : Option UsagePayload :=
  match usage with
  | none => none
  | some u =>
    if natTruthy u.inputTokens || natTruthy u.outputTokens ||
        natTruthy u.totalTokens then
      some { prompt_tokens := u.inputTokens.getD 0,
             completion_tokens := u.outputTokens.getD 0,
             total_tokens := u.totalTokens.getD
               (u.inputTokens.getD 0 + u.outputTokens.getD 0) }
    else none

/-- The `delta` object of one streaming chunk. -/
structure ChunkDelta where
  role : Option String
  content : Option String
deriving DecidableEq, Repr

/-- One `chat.completion.chunk` JSON document. -/
structure StreamChunk where
  id : String
  object : String
  created : Nat
  model : String
  delta : ChunkDelta
  finish_reason : Option String
  usage : Option UsagePayload
deriving DecidableEq, Repr

/-- One SSE event of the synthesized stream: a data chunk or the
`data: [DONE]` end-of-stream marker. -/
inductive SseEvent where
  | chunk (c : StreamChunk)
  | done
deriving DecidableEq, Repr

/-- The single message of the non-streaming `chat.completion` body. -/
structure CompletionMessage where
  role : String
  content : String
deriving DecidableEq, Repr

/-- The non-streaming `chat.completion` JSON body. -/
structure CompletionBody where
  id : String
  object : String
  created : Nat
  model : String
  message : CompletionMessage
  finish_reason : String
  usage : Option UsagePayload
deriving DecidableEq, Repr

/-- `createStreamingResponse` of the gemini provider: a role chunk, one
content chunk carrying the full text, a stop chunk (with the usage block
when known), then `data: [DONE]`. -/
def geminiStreamingEvents (text : String) (usage : Option GeminiCliUsage)
    (modelId : String) (created : Nat) : List SseEvent :=
  let id := "gemini-cli-" ++ toString created
  [ .chunk { id := id, object := "chat.completion.chunk", created := created,
             model := modelId, delta := { role := some "assistant", content := none },
             finish_reason := none, usage := none },
    .chunk { id := id, object := "chat.completion.chunk", created := created,
             model := modelId, delta := { role := none, content := some text },
             finish_reason := none, usage := none },
    .chunk { id := id, object := "chat.completion.chunk", created := created,
             model := modelId, delta := { role := none, content := none },
             finish_reason := some "stop", usage := geminiUsagePayload usage },
    .done ]

/-- `createJsonResponse` of the gemini provider. -/
def geminiJsonBody (text : String) (usage : Option GeminiCliUsage)
    (modelId : String) (created : Nat) : CompletionBody :=
  { id := "gemini-cli-" ++ toString created, object := "chat.completion",
    created := created, model := modelId,
    message := { role := "assistant", content := text },
    finish_reason := "stop", usage := geminiUsagePayload usage }

/-- `createStreamingResponse` of the codex provider (no usage block). -/
def codexStreamingEvents (text : String) (modelId : String) (created : Nat) :
    List SseEvent :=
  let id := "codex-cli-" ++ toString created
  [ .chunk { id := id, object := "chat.completion.chunk", created := created,
             model := modelId, delta := { role := some "assistant", content := none },
             finish_reason := none, usage := none },
    .chunk { id := id, object := "chat.completion.chunk", created := created,
             model := modelId, delta := { role := none, content := some text },
             finish_reason := none, usage := none },
    .chunk { id := id, object := "chat.completion.chunk", created := created,
             model := modelId, delta := { role := none, content := none },
             finish_reason := some "stop", usage := none },
    .done ]

/-- `createJsonResponse` of the codex provider. -/
def codexJsonBody (text : String) (modelId : String) (created : Nat) :
    CompletionBody :=
  { id := "codex-cli-" ++ toString created, object := "chat.completion",
    created := created, model := modelId,
    message := { role := "assistant", content := text },
    finish_reason := "stop", usage := none }

/-- Concatenation, in order, of every content delta of a stream. -/
def contentDeltas (events : List SseEvent) : String :=
  String.join (events.filterMap fun e =>
    match e with
    | .chunk c => c.delta.content
    | .done => none)

/-- Shape classification of one synthesized SSE event. -/
inductive SseShape where
  | roleChunk
  | contentChunk
  | stopChunk
  | eos
deriving DecidableEq, Repr

/-- Classify an emitted SSE event by which delta/terminator it carries. -/
def sseShapeOf : SseEvent → SseShape
  | .done => .eos
  | .chunk c =>
    if c.finish_reason.isSome then .stopChunk
    else if c.delta.content.isSome then .contentChunk
    else .roleChunk

/-! ## Per-provider routing (`getRegularModelClient`, google and openai)

The CLI-versus-API routing of the `google` and `openai` switch cases.
Connection modes are the literal strings `api` (remote only), `cli`
(local only) and `auto`.  The whole CLI construction inside the `try`
(detector, path check, model creation) is abstracted as one
`Except`-valued parameter; the outcome records how many local and remote
client constructions were attempted, so `remote never attempted` is the
statement `remoteAttempts = 0`.
-/

/-- The provider settings fields the routing reads
(`GoogleProviderSetting` / `OpenAIProviderSetting`). -/
structure CliRouteSettings where
  connectionMode : Option String
  cliFallbackToApi : Option Bool
  cliPreferredModels : Option (List String)
  cliTimeoutMs : Option Nat
  cliAutoDetect : Option Bool
  cliPath : Option String
deriving DecidableEq, Repr

/-- The model client the routing returns. -/
inductive RClient where
  | cliClient (modelId : String)
  | apiClient (modelName : String)
deriving DecidableEq, Repr

/-- Routing outcome plus the attempt counters the fallback matrix talks
about. -/
structure RouteOutcome where
  localAttempts : Nat
  remoteAttempts : Nat
  result : Except String RClient
deriving Repr

/-- `selectCliModel`: keep the requested model if the preferred list is
absent, empty, or contains it; otherwise substitute the first preferred
model. -/
def selectCliModel (requestedModel : String)
    (preferredModels : Option (List String)) : String :=
  match preferredModels with
  | some ps =>
    if ps.length > 0 then
      if ps.contains requestedModel then requestedModel else ps.headD requestedModel
    else requestedModel
  | none => requestedModel

/-- The shared tail of the google case: the `if (!apiKey) throw` guard and
the `createGoogle` call. -/
def googleApiTail (apiKey : Option String) (modelName : String)
    (localA : Nat) : RouteOutcome :=
  if strTruthy apiKey then
    { localAttempts := localA, remoteAttempts := 1,
      result := .ok (.apiClient modelName) }
  else
    { localAttempts := localA, remoteAttempts := 0,
      result := .error "Gemini API key is not configured. Provide it in Settings or set GEMINI_API_KEY." }

/-- The `google` case of `getRegularModelClient`.  `cliResult` is the
outcome of the CLI construction attempted inside the `try` block
(`ensureGeminiCliAvailable`, the path check, `createGeminiCliModel`); it
is only consulted when a local attempt is made. -/
def googleRoute (gs : CliRouteSettings) (apiKey : Option String)
    (modelName : String) (cliResult : Except String Unit) : RouteOutcome :=
  let connectionMode := gs.connectionMode.getD "api"
  let cliFallbackToApi := gs.cliFallbackToApi.getD true
  if connectionMode = "api" then
    googleApiTail apiKey modelName 0
  else
    match cliResult with
    | .ok _ =>
      { localAttempts := 1, remoteAttempts := 0,
        result := .ok (.cliClient (selectCliModel modelName gs.cliPreferredModels)) }
    | .error e =>
      let allowFallback := connectionMode = "auto" || cliFallbackToApi
      if allowFallback then
        if strTruthy apiKey then
          googleApiTail apiKey modelName 1
        else
          { localAttempts := 1, remoteAttempts := 0,
            result := .error "Gemini CLI is unavailable and no Gemini API key is configured for fallback. Provide an API key or fix the CLI configuration." }
      else
        { localAttempts := 1, remoteAttempts := 0, result := .error e }

/-- The shared tail of the openai case: the `shouldUseApiFallback` guard,
the `if (!apiKey) throw` guard and the `createOpenAI` call. -/
def openaiApiTail (connectionMode : String) (cliFallbackToApi : Bool)
    (apiKey : Option String) (modelName : String) (localA : Nat) :
    RouteOutcome :=
  let shouldUseApiFallback :=
    connectionMode = "api" || connectionMode = "auto" || cliFallbackToApi
  if shouldUseApiFallback then
    if strTruthy apiKey then
      { localAttempts := localA, remoteAttempts := 1,
        result := .ok (.apiClient modelName) }
    else
      { localAttempts := localA, remoteAttempts := 0,
        result := .error "OpenAI API key is required when using API mode or fallback. Provide it in Settings or set OPENAI_API_KEY." }
  else
    { localAttempts := localA, remoteAttempts := 0,
      result := .error "Codex CLI is not available and API fallback is disabled. Install the Codex CLI or enable fallback to continue." }

/-- The `openai` case of `getRegularModelClient`, analogous to
`googleRoute` with the extra `shouldUseApiFallback` guard in the tail. -/
def openaiRoute (gs : CliRouteSettings) (apiKey : Option String)
    (modelName : String) (cliResult : Except String Unit) : RouteOutcome :=
  let connectionMode := gs.connectionMode.getD "api"
  let cliFallbackToApi := gs.cliFallbackToApi.getD true
  if connectionMode = "api" then
    openaiApiTail connectionMode cliFallbackToApi apiKey modelName 0
  else
    match cliResult with
    | .ok _ =>
      { localAttempts := 1, remoteAttempts := 0,
        result := .ok (.cliClient (selectCliModel modelName gs.cliPreferredModels)) }
    | .error e =>
      let allowFallback := connectionMode = "auto" || cliFallbackToApi
      if allowFallback then
        if strTruthy apiKey then
          openaiApiTail connectionMode cliFallbackToApi apiKey modelName 1
        else
          { localAttempts := 1, remoteAttempts := 0,
            result := .error "Codex CLI is unavailable and no OpenAI API key is configured for fallback. Provide an API key or fix the CLI configuration." }
      else
        { localAttempts := 1, remoteAttempts := 0, result := .error e }

/-! ## Helper lemmas -/

theorem prefixOfChars_iff (p l : List Char) :
    prefixOfChars p l = true ↔ ∃ t, l = p ++ t := by
  induction p generalizing l with
  | nil => simp [prefixOfChars]
  | cons a ps ih =>
    cases l with
    | nil => simp [prefixOfChars]
    | cons c cs =>
      simp only [prefixOfChars, Bool.and_eq_true, decide_eq_true_eq, ih,
        List.cons_append, List.cons.injEq]
      constructor
      · rintro ⟨rfl, t, rfl⟩; exact ⟨t, rfl, rfl⟩
      · rintro ⟨t, h1, h2⟩; exact ⟨h1.symm, t, h2⟩

theorem hasSubChars_iff (pat l : List Char) :
    hasSubChars pat l = true ↔ ∃ pre post, l = pre ++ pat ++ post := by
  induction l with
  | nil =>
    rw [hasSubChars, prefixOfChars_iff]
    constructor
    · rintro ⟨t, ht⟩
      exact ⟨[], t, by simpa using ht⟩
    · rintro ⟨pre, post, h⟩
      have hnil : pre = [] ∧ pat = [] ∧ post = [] := by
        have := h.symm
        simp only [List.append_assoc, List.append_eq_nil] at this
        exact ⟨this.1, this.2.1, this.2.2⟩
      exact ⟨[], by simp [hnil.1, hnil.2.1, hnil.2.2]⟩
  | cons c cs ih =>
    simp only [hasSubChars, Bool.or_eq_true, prefixOfChars_iff, ih]
    constructor
    · rintro (⟨t, ht⟩ | ⟨pre, post, hs⟩)
      · exact ⟨[], t, by simpa using ht⟩
      · exact ⟨c :: pre, post, by simp [hs]⟩
    · rintro ⟨pre, post, h⟩
      cases pre with
      | nil => exact Or.inl ⟨post, by simpa using h⟩
      | cons x xs =>
        right
        refine ⟨xs, post, ?_⟩
        have hx : c = x ∧ cs = xs ++ pat ++ post := by
          simpa using h
        simpa using hx.2

/-- Substring occurrence is transitive. -/
theorem hasSubChars_trans {a b c : List Char}
    (h1 : hasSubChars a b = true) (h2 : hasSubChars b c = true) :
    hasSubChars a c = true := by
  rw [hasSubChars_iff] at h1 h2 ⊢
  obtain ⟨p1, q1, rfl⟩ := h1
  obtain ⟨p2, q2, rfl⟩ := h2
  exact ⟨p2 ++ p1, q1 ++ q2, by simp⟩

/-- Substring occurrence is preserved by mapping a character function. -/
theorem hasSubChars_map {pat l : List Char} (f : Char → Char)
    (h : hasSubChars pat l = true) :
    hasSubChars (pat.map f) (l.map f) = true := by
  rw [hasSubChars_iff] at h ⊢
  obtain ⟨pre, post, rfl⟩ := h
  exact ⟨pre.map f, post.map f, by simp⟩

/-- `includes` survives lowering: if `s` contains `pat` then the lowered `s`
contains the lowered `pat`. -/
theorem jsIncludes_toLower {s pat : String} (h : jsIncludes s pat = true) :
    jsIncludes (jsToLower s) (jsToLower pat) = true :=
  hasSubChars_map Char.toLower h

/-- `includes` on a lowered haystack is transitive through an intermediate
lowered needle. -/
theorem jsIncludes_toLower_trans {s pat sub : String}
    (h : jsIncludes s pat = true)
    (hsub : jsIncludes (jsToLower pat) sub = true) :
    jsIncludes (jsToLower s) sub = true :=
  hasSubChars_trans hsub (hasSubChars_map Char.toLower h)

/-- A nonempty needle found by `includes` forces a nonempty haystack. -/
theorem jsIncludes_haystack_ne {s pat : String} (hpat : pat.data ≠ [])
    (h : jsIncludes s pat = true) : s ≠ "" := by
  intro hs
  subst hs
  rw [jsIncludes, hasSubChars_iff] at h
  obtain ⟨pre, post, hsplit⟩ := h
  have hz : pre ++ pat.data ++ post = ([] : List Char) := hsplit.symm
  rcases List.append_eq_nil.1 hz with ⟨h1, h2⟩
  rcases List.append_eq_nil.1 h1 with ⟨h3, h4⟩
  exact hpat h4

/-- A candidate that is not truthy contributes nothing to the list. -/
theorem pushIfTruthy_eq_nil {o : Option String} (h : strTruthy o = false) :
    pushIfTruthy o = [] := by
  cases o with
  | none => rfl
  | some p =>
    have hp : p = "" := by
      by_contra hne
      simp [strTruthy, hne] at h
    simp [pushIfTruthy, hp]

/-- The loop is exactly `findSome?` of the qualifying function over the
candidate list. -/
theorem resolveLoop_eq_findSome (env : DetectorEnv) (l : List String) :
    resolveLoop env l = l.findSome? (qualifyCandidate env) := by
  induction l with
  | nil => rfl
  | cons c rest ih =>
    rw [resolveLoop, List.findSome?_cons]
    cases qualifyCandidate env c <;> simp [ih]


/-! ## Claim theorems -/

/-- C8: for every server row whose transport kind is unsupported, or a
`stdio` transport with a missing (or empty, hence falsy) command, or an
`http` transport with a missing URL, `initializeClient` fails with the
corresponding descriptive error and no timeout race is ever constructed
for such a configuration. -/
theorem mcp_config_errors_before_race (s : McpServerRow) (serverId : Nat) :
    (s.transport ≠ "stdio" → s.transport ≠ "http" →
      initializeClientRace (some s) serverId =
        .error ("Unsupported MCP transport: " ++ s.transport)) ∧
    (s.transport = "stdio" → strTruthy s.command = false →
      initializeClientRace (some s) serverId =
        .error "MCP server command is required") ∧
    (s.transport = "http" → strTruthy s.url = false →
      initializeClientRace (some s) serverId =
        .error "HTTP MCP requires url") := by
  refine ⟨?_, ?_, ?_⟩
  · intro h1 h2
    simp [initializeClientRace, h1, h2]
  · intro h1 h2
    simp [initializeClientRace, h1, h2]
  · intro h1 h2
    simp [initializeClientRace, h1, h2]

/-- C8 witness: the three configuration errors at concrete rows. -/
theorem mcp_config_errors_before_race_witness :
    initializeClientRace (some ⟨1, "websocket", none, none, none, none⟩) 1 =
      .error "Unsupported MCP transport: websocket" ∧
    initializeClientRace (some ⟨2, "stdio", some "", none, none, none⟩) 2 =
      .error "MCP server command is required" ∧
    initializeClientRace (some ⟨3, "http", some "npx", none, none, none⟩) 3 =
      .error "HTTP MCP requires url" :=
  ⟨(mcp_config_errors_before_race ⟨1, "websocket", none, none, none, none⟩ 1).1
      (by decide) (by decide),
   (mcp_config_errors_before_race ⟨2, "stdio", some "", none, none, none⟩ 2).2.1
      rfl (by decide),
   (mcp_config_errors_before_race ⟨3, "http", some "npx", none, none, none⟩ 3).2.2
      rfl (by decide)⟩

/-- C10: there is an execution in which `dispose` runs while an
initialization for the same identity is in flight; the dispose removes the
in-flight entry, yet when the initialization later succeeds the awaiting
continuation still stores the client, so the disposed identity re-enters
the Ready state without any new `getClient` call, and that client is never
closed by the earlier dispose. -/
theorem mcp_dispose_during_init_reentry :
    (getClientStep 0 5 mcpInit).inflight 5 = some 0 ∧
    (getClientStep 0 5 mcpInit).clients 5 = none ∧
    (disposeStep (fun _ => .ok ()) 5 (getClientStep 0 5 mcpInit)).inflight 5 = none ∧
    (disposeStep (fun _ => .ok ()) 5 (getClientStep 0 5 mcpInit)).clients 5 = none ∧
    (settleStep 0 (.ok 7)
      (disposeStep (fun _ => .ok ()) 5 (getClientStep 0 5 mcpInit))).clients 5 = some 7 ∧
    (settleStep 0 (.ok 7)
      (disposeStep (fun _ => .ok ()) 5 (getClientStep 0 5 mcpInit))).closeAttempted = [] ∧
    (settleStep 0 (.ok 7)
      (disposeStep (fun _ => .ok ()) 5 (getClientStep 0 5 mcpInit))).results = [(0, .ok 7)] := by
  decide

/-- C7: `dispose` never throws (its result is always `ok`, for every
close behaviour); disposing an identity with no record and no in-flight
entry is a no-op; a second dispose in a row is equally safe and attempts
no further close; and regardless of the close outcome both the connection
record and the in-flight entry of the identity are removed. -/
theorem mcp_dispose_safe (close : Nat → Except String Unit) (server : Nat)
    (st : McpState) :
    disposeRun close server st = .ok (disposeStep close server st) ∧
    (disposeStep close server st).clients server = none ∧
    (disposeStep close server st).inflight server = none ∧
    (st.clients server = none ∧ st.inflight server = none →
      (∀ k, (disposeStep close server st).clients k = st.clients k) ∧
      (∀ k, (disposeStep close server st).inflight k = st.inflight k) ∧
      (∀ i, (disposeStep close server st).attempts i = st.attempts i) ∧
      (disposeStep close server st).closeAttempted = st.closeAttempted ∧
      (disposeStep close server st).results = st.results) ∧
    disposeRun close server (disposeStep close server st) =
      .ok (disposeStep close server (disposeStep close server st)) ∧
    (disposeStep close server (disposeStep close server st)).closeAttempted =
      (disposeStep close server st).closeAttempted := by
  have hrun : ∀ t : McpState,
      disposeRun close server t = .ok (disposeStep close server t) := fun t => rfl
  have hclients : (disposeStep close server st).clients server = none := by
    cases h : st.clients server with
    | none => simp [disposeStep, disposeRun, h]
    | some c => cases hc : close c <;> simp [disposeStep, disposeRun, h, hc]
  refine ⟨hrun st, hclients, ?_, ?_, hrun _, ?_⟩
  · cases h : st.clients server with
    | none => simp [disposeStep, disposeRun, h]
    | some c => cases hc : close c <;> simp [disposeStep, disposeRun, h, hc]
  · rintro ⟨h1, h2⟩
    refine ⟨fun k => by simp [disposeStep, disposeRun, h1],
      fun k => ?_, fun i => by simp [disposeStep, disposeRun, h1],
      by simp [disposeStep, disposeRun, h1],
      by simp [disposeStep, disposeRun, h1]⟩
    by_cases hk : k = server
    · subst hk; simp [disposeStep, disposeRun, h1, h2]
    · simp [disposeStep, disposeRun, h1, hk]
  · have key : ∀ t : McpState, t.clients server = none →
        (disposeStep close server t).closeAttempted = t.closeAttempted := by
      intro t ht
      simp [disposeStep, disposeRun, ht]
    exact key _ hclients

/-- C7 witness: a failing `close` at a fresh manager still yields `ok`
and leaves the state untouched. -/
theorem mcp_dispose_safe_witness :
    disposeRun (fun _ => .error "close failed") 4 mcpInit =
      .ok (disposeStep (fun _ => .error "close failed") 4 mcpInit) ∧
    (disposeStep (fun _ => .error "close failed") 4 mcpInit).clients 4 = none ∧
    (disposeStep (fun _ => .error "close failed") 4 mcpInit).closeAttempted =
      mcpInit.closeAttempted ∧
    (disposeStep (fun _ => .error "close failed") 4 mcpInit).results =
      mcpInit.results :=
  have h := mcp_dispose_safe (fun _ => .error "close failed") 4 mcpInit
  ⟨h.1, h.2.1, (h.2.2.2.1 ⟨rfl, rfl⟩).2.2.2.1, (h.2.2.2.1 ⟨rfl, rfl⟩).2.2.2.2⟩

/-- C3: when an attempt settles the in-flight entry of its identity is
removed whether it succeeded or failed; on failure nothing is cached, so a
subsequent `getClient` for that identity starts a brand-new initialization
(a second factory invocation with a fresh attempt) instead of observing
the failed one. -/
theorem mcp_inflight_cleared_on_settle (st : McpState)
    (a server caller clientId : Nat) (w : List Nat) (e : String)
    (hatt : st.attempts a = some ⟨server, w⟩)
    (hnoc : st.clients server = none) :
    (settleStep a (.ok clientId) st).inflight server = none ∧
    (settleStep a (.err e) st).inflight server = none ∧
    (∀ k, (settleStep a (.err e) st).clients k = st.clients k) ∧
    (getClientStep caller server (settleStep a (.err e) st)).factoryCalls =
      (settleStep a (.err e) st).factoryCalls + 1 ∧
    (getClientStep caller server (settleStep a (.err e) st)).inflight server =
      some st.nextAttempt ∧
    (getClientStep caller server (settleStep a (.err e) st)).attempts
      st.nextAttempt = some ⟨server, [caller]⟩ := by
  have herr : settleStep a (.err e) st =
      { st with
        inflight := fun k => if k = server then none else st.inflight k,
        attempts := fun i => if i = a then none else st.attempts i,
        results := w.map (fun x => (x, .err e)) ++ st.results } := by
    simp [settleStep, hatt]
  have hok : (settleStep a (.ok clientId) st).inflight server = none := by
    simp [settleStep, hatt]
  have hinfl : (settleStep a (.err e) st).inflight server = none := by
    rw [herr]; simp
  have hcl : ∀ k, (settleStep a (.err e) st).clients k = st.clients k := by
    intro k; rw [herr]
  refine ⟨hok, hinfl, hcl, ?_, ?_, ?_⟩
  · simp [getClientStep, hcl server, hnoc, hinfl]
  · simp [getClientStep, hcl server, hnoc, hinfl, herr]
  · simp [getClientStep, hcl server, hnoc, hinfl, herr]

/-- C3 witness: after one failed attempt for server 3, the in-flight map
is clear and a retry performs a second factory invocation. -/
theorem mcp_inflight_cleared_on_settle_witness :
    (settleStep 0 (.err "boom") (getClientStep 0 3 mcpInit)).inflight 3 = none ∧
    (getClientStep 1 3 (settleStep 0 (.err "boom")
      (getClientStep 0 3 mcpInit))).factoryCalls =
      (settleStep 0 (.err "boom") (getClientStep 0 3 mcpInit)).factoryCalls + 1 :=
  have h := mcp_inflight_cleared_on_settle (getClientStep 0 3 mcpInit)
    0 3 1 9 [0] "boom" (by decide) (by decide)
  ⟨h.2.1, h.2.2.2.1⟩

/-- Invariant after `n ≥ 1` concurrent arrivals with nothing cached: the
first caller started attempt `0` and every later caller joined it; exactly
one factory call was made and nobody has a result yet. -/
theorem arriveN_inv (server : Nat) : ∀ n, 1 ≤ n →
    (arriveN server n).clients server = none ∧
    (arriveN server n).inflight server = some 0 ∧
    (∃ w, (arriveN server n).attempts 0 = some ⟨server, w⟩ ∧
      ∀ c, c < n → c ∈ w) ∧
    (arriveN server n).factoryCalls = 1 ∧
    (arriveN server n).results = [] := by
  intro n
  induction n with
  | zero => intro h; exact absurd h (by decide)
  | succ m ih =>
    intro _
    cases Nat.eq_zero_or_pos m with
    | inl hm =>
      subst hm
      refine ⟨rfl, ?_, ⟨[0], ?_, ?_⟩, rfl, rfl⟩
      · show (getClientStep 0 server mcpInit).inflight server = some 0
        simp [getClientStep, mcpInit]
      · show (getClientStep 0 server mcpInit).attempts 0 = some ⟨server, [0]⟩
        simp [getClientStep, mcpInit]
      · intro c hc
        interval_cases c
        exact List.mem_singleton.2 rfl
    | inr hm =>
      obtain ⟨h1, h2, ⟨w, hw, hmem⟩, h4, h5⟩ := ih hm
      have hstep : arriveN server (m + 1) =
          { arriveN server m with
            attempts := fun i =>
              if i = 0 then some ⟨server, m :: w⟩
              else (arriveN server m).attempts i } := by
        show getClientStep m server (arriveN server m) = _
        simp [getClientStep, h1, h2, hw]
      rw [hstep]
      refine ⟨h1, h2, ⟨m :: w, by simp, ?_⟩, h4, h5⟩
      intro c hc
      rcases Nat.lt_succ_iff_lt_or_eq.1 hc with hlt | heq
      · exact List.mem_cons_of_mem _ (hmem c hlt)
      · subst heq; exact List.mem_cons_self _ _

/-- C1: `n ≥ 1` concurrent `getClient` callers for the same identity, each
arriving before the shared attempt settles, cause exactly one factory
invocation; no caller is answered before settlement, and at settlement
every one of the `n` callers receives the same client (on success) or the
same rejection (on failure). -/
theorem mcp_no_duplicate_init (server n clientId : Nat) (e : String)
    (hn : 1 ≤ n) :
    (arriveN server n).factoryCalls = 1 ∧
    (arriveN server n).results = [] ∧
    (∀ caller, caller < n →
      (caller, McpOutcome.ok clientId) ∈
        (settleStep 0 (.ok clientId) (arriveN server n)).results) ∧
    (∀ caller, caller < n →
      (caller, McpOutcome.err e) ∈
        (settleStep 0 (.err e) (arriveN server n)).results) := by
  obtain ⟨h1, h2, ⟨w, hw, hmem⟩, h4, h5⟩ := arriveN_inv server n hn
  refine ⟨h4, h5, ?_, ?_⟩
  · intro caller hc
    simp only [settleStep, hw]
    exact List.mem_append_left _ (List.mem_map_of_mem _ (hmem caller hc))
  · intro caller hc
    simp only [settleStep, hw]
    exact List.mem_append_left _ (List.mem_map_of_mem _ (hmem caller hc))

/-- C1 witness: three concurrent callers for server 2 cause one factory
call, and caller 1 receives the shared success or the shared rejection. -/
theorem mcp_no_duplicate_init_witness :
    (arriveN 2 3).factoryCalls = 1 ∧
    (1, McpOutcome.ok 7) ∈ (settleStep 0 (.ok 7) (arriveN 2 3)).results ∧
    (1, McpOutcome.err "boom") ∈
      (settleStep 0 (.err "boom") (arriveN 2 3)).results :=
  have h := mcp_no_duplicate_init 2 3 7 "boom" (by decide)
  ⟨h.1, h.2.2.1 1 (by decide), h.2.2.2 1 (by decide)⟩


/-- With a quota indicator present in the lowered message, the codex
quota detector returns the first nonempty trimmed line (or its default),
hence fires. -/
theorem codexDetectQuotaMessage_pos {raw : String} (hne : raw ≠ "")
    (hind : (jsIncludes (jsToLower raw) "rate limit" ||
      jsIncludes (jsToLower raw) "quota" ||
      jsIncludes (jsToLower raw) "429") = true) :
    codexDetectQuotaMessage (some raw) =
      some ((((splitLines raw).map jsTrim).find?
        fun line => line.length > 0).getD "OpenAI quota exceeded.") := by
  simp only [codexDetectQuotaMessage]
  rw [if_neg hne, if_pos hind]

/-- C4: the claim reads every failed execution containing the text
`Rate limit exceeded, try again later (429)` as producing a 429 response
with code `quota_exceeded`.  That holds for the codex bridge (whose
indicators include `rate limit`); the gemini bridge, whose indicators are
only `quota exceeded` / `rate_limit_exceeded` / `resource_exhausted`,
returns 500 on that text.  Both bridges return 500 on `file not found`,
and the gemini bridge does return 429 with code `quota_exceeded` when one
of its own indicators is present. -/
theorem bridge_quota_detection (stdout stderr : String)
    (launchErr : Option String)
    (h : jsIncludes stderr "Rate limit exceeded, try again later (429)" = true) :
    ((codexFailureResponse stdout stderr launchErr).status = 429 ∧
      (codexFailureResponse stdout stderr launchErr).error.code =
        some "quota_exceeded") ∧
    codexFailureResponse "" "file not found" none =
      ⟨500, ⟨"file not found", "codex_cli_error", none⟩⟩ ∧
    geminiFailureResponse (fun _ => none) "" "Quota exceeded for model gemini" none =
      ⟨429, ⟨"Quota exceeded for model gemini", "rate_limit_exceeded",
        some "quota_exceeded"⟩⟩ ∧
    (geminiFailureResponse (fun _ => none) ""
      "Rate limit exceeded, try again later (429)" none).status = 500 ∧
    (geminiFailureResponse (fun _ => none) "" "file not found" none).status = 500 := by
  refine ⟨?_, by decide, by decide, by decide, by decide⟩
  have hne : stderr ≠ "" :=
    jsIncludes_haystack_ne (by decide) h
  have hlow : jsIncludes (jsToLower stderr) "rate limit" = true :=
    jsIncludes_toLower_trans h (by decide)
  have hdet := codexDetectQuotaMessage_pos hne
    (by rw [hlow]; rfl)
  unfold codexFailureResponse
  rw [hdet]
  exact ⟨rfl, rfl⟩

/-- C4 counterexample: the gemini bridge fed failure text containing
`Rate limit exceeded, try again later (429)` synthesizes status 500, not
the 429 the claim requires. -/
theorem bridge_quota_gemini_500 :
    (geminiFailureResponse (fun _ => none) ""
      "Rate limit exceeded, try again later (429)" none).status = 500 ∧
    (geminiFailureResponse (fun _ => none) ""
      "Rate limit exceeded, try again later (429)" none).status ≠ 429 := by
  decide

/-- C4 witness: the codex bridge on the rate-limit text. -/
theorem bridge_quota_detection_witness :
    (codexFailureResponse "" "Rate limit exceeded, try again later (429)" none).status = 429 ∧
    (codexFailureResponse "" "Rate limit exceeded, try again later (429)" none).error.code =
      some "quota_exceeded" :=
  (bridge_quota_detection "" "Rate limit exceeded, try again later (429)" none
    (by decide)).1

/-- C5: the claim reads every non-quota failure as getting the `401`
inspection.  That is the codex bridge: no quota indicator and a `401`
substring in stderr or stdout gives status 401 with a classified
unauthorized error and the actionable message, else status 500 with the
diagnostic text preferring trimmed stderr, then trimmed stdout, then the
launch error message.  The gemini bridge performs no `401` inspection and
returns 500 even for text containing `401`. -/
theorem bridge_failure_classification (stdout stderr : String)
    (launchErr : Option String) (m : String)
    (hq1 : codexDetectQuotaMessage (some stderr) = none)
    (hq2 : codexDetectQuotaMessage (some stdout) = none) :
    ((jsIncludes stderr "401" || jsIncludes stdout "401") = true →
      codexFailureResponse stdout stderr launchErr =
        ⟨401, ⟨codexUnauthorizedMessage, "codex_cli_error", some "unauthorized"⟩⟩) ∧
    ((jsIncludes stderr "401" || jsIncludes stdout "401") = false →
      codexFailureResponse stdout stderr launchErr =
        ⟨500, ⟨diagnosticText stdout stderr launchErr "Codex CLI failed",
          "codex_cli_error", none⟩⟩) ∧
    (jsTrim stderr ≠ "" →
      diagnosticText stdout stderr launchErr "Codex CLI failed" = jsTrim stderr) ∧
    (jsTrim stderr = "" → jsTrim stdout ≠ "" →
      diagnosticText stdout stderr launchErr "Codex CLI failed" = jsTrim stdout) ∧
    (jsTrim stderr = "" → jsTrim stdout = "" → launchErr = some m → m ≠ "" →
      diagnosticText stdout stderr launchErr "Codex CLI failed" = m) ∧
    (geminiFailureResponse (fun _ => none) "" "HTTP 401 Unauthorized" none).status
      = 500 := by
  refine ⟨?_, ?_, ?_, ?_, ?_, by decide⟩
  · intro h401
    unfold codexFailureResponse
    rw [hq1, hq2]
    simp only [Option.orElse]
    rw [if_pos h401]
  · intro h401
    unfold codexFailureResponse
    rw [hq1, hq2]
    simp only [Option.orElse]
    rw [if_neg (by rw [h401]; exact Bool.false_ne_true)]
  · intro h
    simp [diagnosticText, h]
  · intro h1 h2
    simp [diagnosticText, h1, h2]
  · intro h1 h2 h3 h4
    simp [diagnosticText, h1, h2, h3, h4]

/-- C5 counterexample: the gemini bridge fed failure text containing
`401` synthesizes status 500, not the 401 classification the claim
requires of every bridge. -/
theorem bridge_gemini_no_401 :
    (geminiFailureResponse (fun _ => none) "" "HTTP 401 Unauthorized" none).status = 500 ∧
    (geminiFailureResponse (fun _ => none) "" "HTTP 401 Unauthorized" none).status ≠ 401 := by
  decide

/-- C5 witness: codex 401 classification, codex 500 diagnostic carrying
stderr, and the stdout/launch-error preference order at concrete texts. -/
theorem bridge_failure_classification_witness :
    codexFailureResponse "" "response code 401" none =
      ⟨401, ⟨codexUnauthorizedMessage, "codex_cli_error", some "unauthorized"⟩⟩ ∧
    codexFailureResponse "" "oops" (some "spawn failed") =
      ⟨500, ⟨"oops", "codex_cli_error", none⟩⟩ ∧
    diagnosticText "out text" "" (some "spawn failed") "Codex CLI failed" = "out text" ∧
    diagnosticText "" "" (some "spawn failed") "Codex CLI failed" = "spawn failed" :=
  have h1 := bridge_failure_classification "" "response code 401" none "x"
    (by decide) (by decide)
  have h2 := bridge_failure_classification "" "oops" (some "spawn failed") "x"
    (by decide) (by decide)
  have h3 := bridge_failure_classification "out text" "" (some "spawn failed") "x"
    (by decide) (by decide)
  have h4 := bridge_failure_classification "" "" (some "spawn failed") "spawn failed"
    (by decide) (by decide)
  ⟨h1.1 (by decide),
   by rw [h2.2.1 (by decide)]; rw [h2.2.2.1 (by decide)]; rfl,
   h3.2.2.2.1 (by decide) (by decide),
   h4.2.2.2.2.1 (by decide) (by decide) rfl (by decide)⟩

/-- C9: for every successful output text and usage record, the
non-streaming message content equals the concatenation of all content
deltas of the streaming response built from the same text, and the stream
emits, in order, a role chunk, one content chunk carrying the full text, a
stop chunk, and the end-of-stream marker (for both providers). -/
theorem bridge_stream_parity (text modelId : String)
    (usage : Option GeminiCliUsage) (created : Nat) :
    contentDeltas (geminiStreamingEvents text usage modelId created) = text ∧
    (geminiJsonBody text usage modelId created).message.content =
      contentDeltas (geminiStreamingEvents text usage modelId created) ∧
    contentDeltas (codexStreamingEvents text modelId created) = text ∧
    (codexJsonBody text modelId created).message.content =
      contentDeltas (codexStreamingEvents text modelId created) ∧
    (geminiStreamingEvents text usage modelId created).map sseShapeOf =
      [.roleChunk, .contentChunk, .stopChunk, .eos] ∧
    (codexStreamingEvents text modelId created).map sseShapeOf =
      [.roleChunk, .contentChunk, .stopChunk, .eos] ∧
    ((geminiStreamingEvents text usage modelId created).filterMap fun e =>
      match e with
      | .chunk c => c.delta.content
      | .done => none) = [text] ∧
    ((codexStreamingEvents text modelId created).filterMap fun e =>
      match e with
      | .chunk c => c.delta.content
      | .done => none) = [text] := by
  refine ⟨?_, ?_, ?_, ?_, rfl, rfl, ?_, ?_⟩ <;>
    simp [contentDeltas, geminiStreamingEvents, codexStreamingEvents,
      geminiJsonBody, codexJsonBody, String.join]


/-- C6: the locator accepts the first qualifying candidate in the fixed
order: a qualifying explicit path always wins; absent a truthy explicit
path, a qualifying environment override wins; absent both (with
auto-detection on) the first qualifying auto-detect candidate (the PATH
lookup name followed by the well-known install paths) wins; and a
candidate qualifies only if it resolves to a concrete command that passes
the executability check. -/
theorem cli_resolution_order (env : DetectorEnv) :
    (∀ p cmd autoDetect, qualifyCandidate env p = some cmd →
      resolveCliPath (some p) autoDetect env = (some cmd, none)) ∧
    (∀ explicitPath q cmd autoDetect, strTruthy explicitPath = false →
      env.envPath = some q → qualifyCandidate env q = some cmd →
      resolveCliPath explicitPath autoDetect env = (some cmd, none)) ∧
    (∀ explicitPath autoDetect cmd, strTruthy explicitPath = false →
      strTruthy env.envPath = false → autoDetect ≠ some false →
      ((if env.pathIsSet then "gemini" else "") :: defaultPathCandidates).findSome?
        (qualifyCandidate env) = some cmd →
      resolveCliPath explicitPath autoDetect env = (some cmd, none)) ∧
    (∀ c cmd, qualifyCandidate env c = some cmd → env.canExec cmd = true) := by
  have hqempty : qualifyCandidate env "" = none := by simp [qualifyCandidate]
  refine ⟨?_, ?_, ?_, ?_⟩
  · intro p cmd autoDetect hq
    have hp : p ≠ "" := by
      intro hp0; rw [hp0, hqempty] at hq; exact Option.noConfusion hq
    rw [resolveCliPath, resolveLoop_eq_findSome, buildCandidates]
    rw [show pushIfTruthy (some p) = [p] from by simp [pushIfTruthy, hp]]
    rw [List.singleton_append, List.cons_append, List.findSome?_cons, hq]
  · intro explicitPath q cmd autoDetect hex henv hq
    have hqne : q ≠ "" := by
      intro h0; rw [h0, hqempty] at hq; exact Option.noConfusion hq
    rw [resolveCliPath, resolveLoop_eq_findSome, buildCandidates,
      pushIfTruthy_eq_nil hex, henv,
      show pushIfTruthy (some q) = [q] from by simp [pushIfTruthy, hqne]]
    rw [List.nil_append, List.singleton_append, List.findSome?_cons, hq]
  · intro explicitPath autoDetect cmd hex henv hauto hfind
    rw [resolveCliPath, resolveLoop_eq_findSome, buildCandidates,
      pushIfTruthy_eq_nil hex, pushIfTruthy_eq_nil henv,
      if_pos hauto, List.nil_append, List.nil_append, hfind]
  · intro c cmd hq
    by_cases hc : c = ""
    · rw [hc, hqempty] at hq; exact Option.noConfusion hq
    · rw [qualifyCandidate, if_neg hc] at hq
      rcases h2 : (if jsIncludes c "/" || jsIncludes c "\\" then some c
          else findInPath env c) with _ | cmd2 <;> rw [h2] at hq
      · exact Option.noConfusion hq
      · by_cases hex : env.canExec cmd2 = true
        · simp only [hex, if_true] at hq
          cases hq
          exact hex
        · simp [hex] at hq

/-- C6 witness: a concrete environment in which the explicit path, the
environment override, and the PATH lookup each win in their scenario. -/
theorem cli_resolution_order_witness :
    resolveCliPath (some "/opt/custom/gemini") (some true)
        ⟨some "/env/gemini", true, fun b => (true, "/which/" ++ b ++ "\n"),
          fun _ => true⟩ =
      (some "/opt/custom/gemini", none) ∧
    resolveCliPath none (some true)
        ⟨some "/env/gemini", true, fun b => (true, "/which/" ++ b ++ "\n"),
          fun _ => true⟩ =
      (some "/env/gemini", none) ∧
    resolveCliPath none none
        ⟨none, true, fun b => (true, "/which/" ++ b ++ "\n"), fun _ => true⟩ =
      (some "/which/gemini", none) ∧
    (⟨none, true, fun b => (true, "/which/" ++ b ++ "\n"), fun _ => true⟩ :
      DetectorEnv).canExec "/which/gemini" = true :=
  ⟨(cli_resolution_order ⟨some "/env/gemini", true,
      fun b => (true, "/which/" ++ b ++ "\n"), fun _ => true⟩).1
    "/opt/custom/gemini" "/opt/custom/gemini" (some true) (by decide),
   (cli_resolution_order ⟨some "/env/gemini", true,
      fun b => (true, "/which/" ++ b ++ "\n"), fun _ => true⟩).2.1
    none "/env/gemini" "/env/gemini" (some true) rfl rfl (by decide),
   (cli_resolution_order ⟨none, true,
      fun b => (true, "/which/" ++ b ++ "\n"), fun _ => true⟩).2.2.1
    none none "/which/gemini" rfl rfl (by decide) (by decide),
   (cli_resolution_order ⟨none, true,
      fun b => (true, "/which/" ++ b ++ "\n"), fun _ => true⟩).2.2.2
    "gemini" "/which/gemini" (by decide)⟩


/-- C2: the fallback matrix of `getRegularModelClient` for the google and
openai cases: CLI-only mode with the fallback flag off and a failing CLI
rejects with the CLI error and never attempts the API path; CLI-only mode
with the flag on, a failing CLI and a truthy key attempts and returns the
API client; auto mode with a failing CLI and no (or empty) key rejects
with the no-key-for-fallback message whatever the flag; auto mode with the
flag off but a key still falls back (the flag cannot disable auto); API
mode never attempts the CLI path; and on a CLI failure the decision is
exactly `allowFallback = (mode = auto) || fallback-flag (default true)`. -/
theorem routing_fallback_matrix :
    (∀ prefs tmo ad cp key m e,
      googleRoute ⟨some "cli", some false, prefs, tmo, ad, cp⟩ key m (.error e) =
        ⟨1, 0, .error e⟩) ∧
    (∀ prefs tmo ad cp k m e, k ≠ "" →
      googleRoute ⟨some "cli", some true, prefs, tmo, ad, cp⟩ (some k) m (.error e) =
        ⟨1, 1, .ok (.apiClient m)⟩) ∧
    (∀ f prefs tmo ad cp m e,
      googleRoute ⟨some "auto", f, prefs, tmo, ad, cp⟩ none m (.error e) =
        ⟨1, 0, .error "Gemini CLI is unavailable and no Gemini API key is configured for fallback. Provide an API key or fix the CLI configuration."⟩) ∧
    (∀ prefs tmo ad cp k m e, k ≠ "" →
      googleRoute ⟨some "auto", some false, prefs, tmo, ad, cp⟩ (some k) m (.error e) =
        ⟨1, 1, .ok (.apiClient m)⟩) ∧
    (∀ f prefs tmo ad cp key m cliResult,
      (googleRoute ⟨some "api", f, prefs, tmo, ad, cp⟩ key m cliResult).localAttempts = 0) ∧
    (∀ mode f prefs tmo ad cp m e, mode ≠ "api" →
      (googleRoute ⟨some mode, f, prefs, tmo, ad, cp⟩ none m (.error e)).result =
        (if mode = "auto" || f.getD true then
          .error "Gemini CLI is unavailable and no Gemini API key is configured for fallback. Provide an API key or fix the CLI configuration."
        else .error e)) ∧
    (∀ prefs tmo ad cp key m e,
      openaiRoute ⟨some "cli", some false, prefs, tmo, ad, cp⟩ key m (.error e) =
        ⟨1, 0, .error e⟩) ∧
    (∀ prefs tmo ad cp k m e, k ≠ "" →
      openaiRoute ⟨some "cli", some true, prefs, tmo, ad, cp⟩ (some k) m (.error e) =
        ⟨1, 1, .ok (.apiClient m)⟩) ∧
    (∀ f prefs tmo ad cp m e,
      openaiRoute ⟨some "auto", f, prefs, tmo, ad, cp⟩ none m (.error e) =
        ⟨1, 0, .error "Codex CLI is unavailable and no OpenAI API key is configured for fallback. Provide an API key or fix the CLI configuration."⟩) ∧
    (∀ prefs tmo ad cp k m e, k ≠ "" →
      openaiRoute ⟨some "auto", some false, prefs, tmo, ad, cp⟩ (some k) m (.error e) =
        ⟨1, 1, .ok (.apiClient m)⟩) ∧
    (∀ f prefs tmo ad cp key m cliResult,
      (openaiRoute ⟨some "api", f, prefs, tmo, ad, cp⟩ key m cliResult).localAttempts = 0) ∧
    (∀ mode f prefs tmo ad cp m e, mode ≠ "api" →
      (openaiRoute ⟨some mode, f, prefs, tmo, ad, cp⟩ none m (.error e)).result =
        (if mode = "auto" || f.getD true then
          .error "Codex CLI is unavailable and no OpenAI API key is configured for fallback. Provide an API key or fix the CLI configuration."
        else .error e)) := by
  refine ⟨fun prefs tmo ad cp key m e => rfl,
    fun prefs tmo ad cp k m e hk => ?_,
    fun f prefs tmo ad cp m e => rfl,
    fun prefs tmo ad cp k m e hk => ?_,
    fun f prefs tmo ad cp key m cliResult => ?_,
    fun mode f prefs tmo ad cp m e hmode => ?_,
    fun prefs tmo ad cp key m e => rfl,
    fun prefs tmo ad cp k m e hk => ?_,
    fun f prefs tmo ad cp m e => rfl,
    fun prefs tmo ad cp k m e hk => ?_,
    fun f prefs tmo ad cp key m cliResult => ?_,
    fun mode f prefs tmo ad cp m e hmode => ?_⟩
  · simp [googleRoute, googleApiTail, strTruthy, hk]
  · simp [googleRoute, googleApiTail, strTruthy, hk]
  · unfold googleRoute googleApiTail
    cases h : strTruthy key <;> simp [h]
  · unfold googleRoute
    rw [show (Option.getD (some mode) "api") = mode from rfl, if_neg hmode]
    simp only [strTruthy]
    by_cases h : mode = "auto"
    · simp [h, googleApiTail]
    · cases hf : f with
      | none => simp [h, googleApiTail]
      | some b => cases b <;> simp [h, googleApiTail]
  · simp [openaiRoute, openaiApiTail, strTruthy, hk]
  · simp [openaiRoute, openaiApiTail, strTruthy, hk]
  · unfold openaiRoute openaiApiTail
    cases h : strTruthy key <;> simp [h]
  · unfold openaiRoute
    rw [show (Option.getD (some mode) "api") = mode from rfl, if_neg hmode]
    simp only [strTruthy]
    by_cases h : mode = "auto"
    · simp [h, openaiApiTail]
    · cases hf : f with
      | none => simp [h, openaiApiTail]
      | some b => cases b <;> simp [h, openaiApiTail]


/-- C2 witness -/
theorem routing_fallback_matrix_witness :
    googleRoute ⟨some "cli", some false, none, none, none, none⟩ (some "sk")
        "gemini-pro" (.error "cli broke") = ⟨1, 0, .error "cli broke"⟩ ∧
    googleRoute ⟨some "cli", some true, none, none, none, none⟩ (some "sk")
        "gemini-pro" (.error "cli broke") = ⟨1, 1, .ok (.apiClient "gemini-pro")⟩ ∧
    googleRoute ⟨some "auto", some true, none, none, none, none⟩ none
        "gemini-pro" (.error "cli broke") =
      ⟨1, 0, .error "Gemini CLI is unavailable and no Gemini API key is configured for fallback. Provide an API key or fix the CLI configuration."⟩ ∧
    googleRoute ⟨some "auto", some false, none, none, none, none⟩ (some "sk")
        "gemini-pro" (.error "cli broke") = ⟨1, 1, .ok (.apiClient "gemini-pro")⟩ ∧
    (googleRoute ⟨some "api", some true, none, none, none, none⟩ (some "sk")
        "gemini-pro" (.error "cli broke")).localAttempts = 0 ∧
    (googleRoute ⟨some "cli", some false, none, none, none, none⟩ none
        "gemini-pro" (.error "cli broke")).result = .error "cli broke" ∧
    openaiRoute ⟨some "cli", some false, none, none, none, none⟩ (some "sk")
        "gpt-5" (.error "cli broke") = ⟨1, 0, .error "cli broke"⟩ ∧
    openaiRoute ⟨some "cli", some true, none, none, none, none⟩ (some "sk")
        "gpt-5" (.error "cli broke") = ⟨1, 1, .ok (.apiClient "gpt-5")⟩ ∧
    openaiRoute ⟨some "auto", some true, none, none, none, none⟩ none
        "gpt-5" (.error "cli broke") =
      ⟨1, 0, .error "Codex CLI is unavailable and no OpenAI API key is configured for fallback. Provide an API key or fix the CLI configuration."⟩ ∧
    openaiRoute ⟨some "auto", some false, none, none, none, none⟩ (some "sk")
        "gpt-5" (.error "cli broke") = ⟨1, 1, .ok (.apiClient "gpt-5")⟩ ∧
    (openaiRoute ⟨some "api", some true, none, none, none, none⟩ (some "sk")
        "gpt-5" (.error "cli broke")).localAttempts = 0 ∧
    (openaiRoute ⟨some "cli", some false, none, none, none, none⟩ none
        "gpt-5" (.error "cli broke")).result = .error "cli broke" :=
  have h := routing_fallback_matrix
  ⟨h.1 none none none none (some "sk") "gemini-pro" "cli broke",
   h.2.1 none none none none "sk" "gemini-pro" "cli broke" (by decide),
   h.2.2.1 (some true) none none none none "gemini-pro" "cli broke",
   h.2.2.2.1 none none none none "sk" "gemini-pro" "cli broke" (by decide),
   h.2.2.2.2.1 (some true) none none none none (some "sk") "gemini-pro"
     (.error "cli broke"),
   by
     rw [h.2.2.2.2.2.1 "cli" (some false) none none none none "gemini-pro"
       "cli broke" (by decide)]
     rfl,
   h.2.2.2.2.2.2.1 none none none none (some "sk") "gpt-5" "cli broke",
   h.2.2.2.2.2.2.2.1 none none none none "sk" "gpt-5" "cli broke" (by decide),
   h.2.2.2.2.2.2.2.2.1 (some true) none none none none "gpt-5" "cli broke",
   h.2.2.2.2.2.2.2.2.2.1 none none none none "sk" "gpt-5" "cli broke" (by decide),
   h.2.2.2.2.2.2.2.2.2.2.1 (some true) none none none none (some "sk") "gpt-5"
     (.error "cli broke"),
   by
     rw [h.2.2.2.2.2.2.2.2.2.2.2 "cli" (some false) none none none none "gpt-5"
       "cli broke" (by decide)]
     rfl⟩


end Dyad
